import Mathlib

/-!
Verification of the voxel selection / transactional edit engine of the
fsleyes repository, as described by its natural-language specification.

The definitions below are shallow embeddings of:

* `OrthoEditProfile.__recordSelectionMerger` and
  `OrthoEditProfile.__getSelectionMerger`
  (src/fsleyes/profiles/orthoeditprofile.py, the "merge advisor");
* the search-radius and slice-restriction computations of
  `OrthoEditProfile.__selintSelect`;
* `SelectionTextureBase.__selectionChanged`
  (src/fsleyes/gl/textures/selectiontexture.py);
* the transactional profile actions `fillSelection`, `eraseSelection`,
  `pasteSelection`, `undo` and `redo`.

Where the code that decides a claim lives outside the visible sources
(the `fsleyes.editor` package: `Editor`, `Selection`, change history,
`skipAll` notification suppression, and `Image.sameSpace`), the
corresponding definitions are modelled from the specification and say so
in their doc comments.
-/

namespace FsleyesSpec

/-! ## Merge advisor (`__recordSelectionMerger` / `__getSelectionMerger`) -/

/-- The profile modes recorded by `__recordSelectionMerger`: manual
selection (`'sel'`), manual deselection (`'desel'`) and select-by-intensity
(`'selint'`). -/
inductive MergeMode
  | sel
  | desel
  | selint
deriving DecidableEq, Repr

/-- A voxel coordinate or block shape: an integer triple. -/
abbrev Voxel := Nat × Nat × Nat

/-- An `(offset, size)` block of the selection array, as stored in the
profile field `__mergeBlock`. -/
abbrev MergeBlock := Voxel × Voxel

/-- The four merge-bookkeeping fields of `OrthoEditProfile`
(`__mergeMode`, `__merge3D`, `__mergeRadius`, `__mergeBlock`), each of
which is `None` (here `Option.none`) until armed by a mutating
operation. -/
structure MergeState where
  mergeMode   : Option MergeMode
  merge3D     : Option Bool
  mergeRadius : Option Bool
  mergeBlock  : Option MergeBlock
deriving DecidableEq, Repr

/-- The state in which every merge-bookkeeping field is `None`, as set by
the `finally` block of `__getSelectionMerger`. -/
def MergeState.empty : MergeState :=
  ⟨none, none, none, none⟩

/-- `__recordSelectionMerger(mode, offset, size)`: ignores the record when
`__mergeMode == 'sel'`; otherwise sets the mode, the current
`selectionIs3D` and `limitToRadius` flags, and - only for a radius-limited
`'selint'` operation - stores the `(offset, size)` block (any previously
stored block is left in place otherwise). -/
def recordSelectionMerger (selectionIs3D limitToRadius : Bool)
    (mode : MergeMode) (offset size : Voxel) (s : MergeState) : MergeState :=
  if s.mergeMode = some MergeMode.sel then s
  else
    { mergeMode   := some mode
      merge3D     := some selectionIs3D
      mergeRadius := some limitToRadius
      mergeBlock  :=
        if mode = MergeMode.selint ∧ limitToRadius then some (offset, size)
        else s.mergeBlock }

/-- The three possible answers of `__getSelectionMerger`: the string
`'clear'`, the Python value `None` (here `keep`: no clear and no merge
needed), or a stored `(offset, size)` block. -/
inductive MergeDecision
  | clear
  | keep
  | block (b : MergeBlock)
deriving DecidableEq, Repr

/-- Returning the field `__mergeBlock` from `__getSelectionMerger`: a
stored block becomes a block decision, while a `None` block is the Python
value `None`, i.e. `keep`. -/
def blockToDecision : Option MergeBlock → MergeDecision
  | none   => MergeDecision.keep
  | some b => MergeDecision.block b

/-- Python truthiness of `not x` for a variable holding `None`, `True` or
`False`: `not None` is `True`. Used for `not self.__merge3D` and
`not self.__mergeRadius` in `__getSelectionMerger`. -/
def pyNot : Option Bool → Bool
  | none   => true
  | some b => !b

/-- `__getSelectionMerger()`: the decision sequence of the source -
`None` when not limiting by radius; `'clear'` after a manual selection;
the stored block after a deselection; `'clear'` when the recorded
operation was not 3D but 3D mode is now on, or was not radius-limited
while radius limiting is now on; otherwise the stored block. The
`finally` clause resets all four bookkeeping fields, so the function
returns the decision together with the reset state. -/
def getSelectionMerger (selectionIs3D limitToRadius : Bool)
    (s : MergeState) : MergeDecision × MergeState :=
  let r :=
    if !limitToRadius then MergeDecision.keep
    else if s.mergeMode = some MergeMode.sel then MergeDecision.clear
    else if s.mergeMode = some MergeMode.desel then blockToDecision s.mergeBlock
    else if pyNot s.merge3D && selectionIs3D then MergeDecision.clear
    else if pyNot s.mergeRadius && limitToRadius then MergeDecision.clear
    else blockToDecision s.mergeBlock
  (r, MergeState.empty)

/-! ## Select-by-intensity arguments (`__selintSelect`) -/

/-- The `searchRadius` argument computed by `__selintSelect`: `None` when
`limitToRadius` is off, otherwise the physical `searchRadius` property
divided independently by each axis's voxel spacing
(`pixdim[0]`, `pixdim[1]`, `pixdim[2]`). -/
def selintSearchRadius (limitToRadius : Bool) (searchRadius : ℚ)
    (pixdim : ℚ × ℚ × ℚ) : Option (ℚ × ℚ × ℚ) :=
  if !limitToRadius then none
  else some (searchRadius / pixdim.1,
             searchRadius / pixdim.2.1,
             searchRadius / pixdim.2.2)

/-- A Python slice bound per axis: `none` stands for
`slice(None, None, None)` (unbounded), `some (lo, hi)` for
`slice(lo, hi)`. -/
abbrev AxisSlice := Option (Nat × Nat)

/-- Whether index `i` lies inside an axis slice. -/
def inSliceB : AxisSlice → Nat → Bool
  | none,          _ => true
  | some (lo, hi), i => decide (lo ≤ i) && decide (i < hi)

/-- The `restrict` argument computed by `__selintSelect`: `None` when
`selectionIs3D` is on; otherwise unbounded slices on every axis except
the source canvas's depth axis `zax`, which is restricted to
`slice(voxel[zax], voxel[zax] + 1)`. -/
def selintRestrict (selectionIs3D : Bool) (zax : Fin 3)
    (voxel : Fin 3 → Nat) : Option (Fin 3 → AxisSlice) :=
  if selectionIs3D then none
  else some fun ax =>
    if ax = zax then some (voxel zax, voxel zax + 1) else none

/-! ## Selection texture (`SelectionTextureBase.__selectionChanged`) -/

/-- A dense volume of selection weights, indexed by voxel coordinate. -/
abbrev Vol := Voxel → ℚ

/-- A single-channel uint8 texture, indexed by voxel coordinate. -/
abbrev Tex := Voxel → Nat

/-- Whether a voxel lies inside the block with the given offset and
shape. -/
def inBlock (offset shape p : Voxel) : Bool :=
  decide (offset.1 ≤ p.1 ∧ p.1 < offset.1 + shape.1) &&
  decide (offset.2.1 ≤ p.2.1 ∧ p.2.1 < offset.2.1 + shape.2.1) &&
  decide (offset.2.2 ≤ p.2.2 ∧ p.2.2 < offset.2.2 + shape.2.2)

/-- Coordinate of `p` relative to a block offset. -/
def relVox (offset p : Voxel) : Voxel :=
  (p.1 - offset.1, p.2.1 - offset.2.1, p.2.2 - offset.2.2)

/-- Absolute coordinate of the block-relative voxel `q` of a block at
`offset`. -/
def addVox (offset q : Voxel) : Voxel :=
  (offset.1 + q.1, offset.2.1 + q.2.1, offset.2.2 + q.2.2)

/-- The scaling `(data * 255).astype(np.uint8)` applied by
`__selectionChanged` at a single selection weight: multiply by 255 and
truncate to an integer (selection weights lie in `[0, 1]`, so the value
is non-negative and truncation agrees with the floor). -/
def toUint8 (v : ℚ) : Nat :=
  (⌊v * 255⌋).toNat

/-- The `(old, new, offset)` triple returned by
`Selection.getLastChange` when a delta has been recorded: the old and new
data of the changed block (in block-relative coordinates), the block
shape, and the block offset into the full volume. -/
structure LastChange where
  old    : Vol
  new    : Vol
  shape  : Voxel
  offset : Voxel

/-- `Texture.doPatch(data, offset)`: writes `data` (of the given shape)
into the texture at `offset`, leaving every texel outside the block
untouched. -/
def doPatch (tex : Tex) (data : Voxel → Nat) (offset shape : Voxel) : Tex :=
  fun p => if inBlock offset shape p then data (relVox offset p) else tex p

/-- A full upload `self.set(data=...)` of the scaled selection volume. -/
def fullUpload (sel : Vol) : Tex :=
  fun p => toUint8 (sel p)

/-- `SelectionTextureBase.__selectionChanged`: if `getLastChange` reports
no delta (`new is None`), the full selection volume is fetched via
`getSelection`, scaled to uint8 and uploaded; otherwise only the reported
block is scaled and patched in at its offset. -/
def selectionChanged (tex : Tex) (sel : Vol) (change : Option LastChange) :
    Tex :=
  match change with
  | none   => fullUpload sel
  | some c => doPatch tex (fun q => toUint8 (c.new q)) c.offset c.shape

/-- Concrete texture for the witness of the claim about
`__selectionChanged`. -/
def texC5 : Tex := fun _ => 0

/-- Concrete selection volume for the witness of the claim about
`__selectionChanged`. -/
def selC5 : Vol := fun _ => 0

/-- Concrete recorded delta for the witness of the claim about
`__selectionChanged`. -/
def changeC5 : LastChange :=
  ⟨fun _ => 0, fun _ => 0, (1,1,1), (0,0,0)⟩

/-! ## Editor and change history

The `fsleyes.editor` package (`Editor`, `Selection`, `ChangeRecord`, the
change history) and `Image.sameSpace` are not among the visible sources -
only their callers in `OrthoEditProfile` are. They are modelled from the
specification; the profile actions driving them are embedded from
src/fsleyes/profiles/orthoeditprofile.py. -/

/-- The target of a `ChangeRecord`: the image buffer or the selection
mask. -/
inductive ChangeTarget
  | image
  | mask
deriving DecidableEq, Repr

/-- Modelled from the spec: a `ChangeRecord`
`{offset, oldValues, newValues, target}` - old and new data blocks of one
shape at one offset, against the image buffer or the selection mask.
Block data is kept in block-relative coordinates. -/
structure ChangeRecord where
  target    : ChangeTarget
  offset    : Voxel
  shape     : Voxel
  oldValues : Vol
  newValues : Vol

/-- Modelled from the spec: the state owned by an `Editor` - the target
image buffer and the selection mask (both of one shape), the undo and
redo stacks of closed change groups, and the currently open change group,
if any. -/
structure EditorState where
  shape     : Voxel
  image     : Vol
  mask      : Vol
  undoStack : List (List ChangeRecord)
  redoStack : List (List ChangeRecord)
  openGroup : Option (List ChangeRecord)

/-- Whether a voxel lies inside the volume extent. -/
def inVol (shape p : Voxel) : Bool :=
  inBlock (0,0,0) shape p

/-- Writes a data block over a volume at an offset, leaving the rest of
the volume untouched. -/
def applyBlock (vol : Vol) (offset shape : Voxel) (data : Vol) : Vol :=
  fun p => if inBlock offset shape p then data (relVox offset p) else vol p

/-- Modelled from the spec: recording one mutation - appended to the open
change group when one is open, otherwise pushed as a singleton group onto
the undo stack, clearing the redo stack (standard linear history). -/
def recordChange (r : ChangeRecord) (e : EditorState) : EditorState :=
  match e.openGroup with
  | some g => { e with openGroup := some (g ++ [r]) }
  | none   => { e with undoStack := [r] :: e.undoStack, redoStack := [] }

/-- A mutation of the image buffer computed from the current editor
state: the new image volume is recorded against the whole volume extent
and installed. Common shape of `Editor.fillSelection` and
`Editor.pasteSelection`, both modelled from the spec. -/
def edSetImage (f : EditorState → Vol) (e : EditorState) : EditorState :=
  recordChange ⟨ChangeTarget.image, (0,0,0), e.shape, e.image, f e⟩
    { e with image := f e }

/-- Modelled from the spec: `Editor.fillSelection(value)` - every voxel
of the volume with nonzero selection weight receives `value`; recorded as
one `ChangeRecord` against the image buffer. -/
def edFillSelection (value : ℚ) (e : EditorState) : EditorState :=
  edSetImage
    (fun es p =>
      if inVol es.shape p && decide (es.mask p ≠ 0) then value
      else es.image p) e

/-- The geometric identity and data of an image overlay: shape, per-axis
voxel spacing, and voxel data. -/
structure Image where
  shape  : Voxel
  pixdim : ℚ × ℚ × ℚ
  data   : Vol

/-- Modelled from the spec: `Image.sameSpace` - identical shape and voxel
spacing. -/
def sameSpace (a b : Image) : Bool :=
  decide (a.shape = b.shape) && decide (a.pixdim = b.pixdim)

/-- The clipboard of the profile: a copied data block together with the
source image it was copied from (`__clipboard` and `__clipboardSource`). -/
structure Clipboard where
  data   : Vol
  source : Image

/-- Modelled from the spec: `Editor.pasteSelection(clipboard)` - writes
the clipboard data into the target image at the selection's current
location (the voxels with nonzero selection weight); recorded as one
`ChangeRecord` against the image buffer. -/
def edPasteSelection (cb : Clipboard) (e : EditorState) : EditorState :=
  edSetImage
    (fun es p =>
      if inVol es.shape p && decide (es.mask p ≠ 0) then cb.data p
      else es.image p) e

/-- Modelled from the spec: `Editor.clearSelection()` - zeroes the
selection mask; recorded as a `ChangeRecord` against the mask, so that it
is itself undoable. -/
def edClearSelection (e : EditorState) : EditorState :=
  recordChange
    ⟨ChangeTarget.mask, (0,0,0), e.shape, e.mask,
     fun p => if inVol e.shape p then 0 else e.mask p⟩
    { e with mask := fun p => if inVol e.shape p then 0 else e.mask p }

/-- Modelled from the spec: `startChangeGroup` - opens a change group;
opening while one is already open is an `InvalidGroupState` programming
error, signalled as `none`. -/
def startChangeGroup (e : EditorState) : Option EditorState :=
  match e.openGroup with
  | some _ => none
  | none   => some { e with openGroup := some [] }

/-- Modelled from the spec: `endChangeGroup` - closes the open change
group and pushes it onto the undo stack, clearing the redo stack; closing
without an open group is an `InvalidGroupState` programming error,
signalled as `none`. -/
def endChangeGroup (e : EditorState) : Option EditorState :=
  match e.openGroup with
  | none   => none
  | some g =>
    some { e with openGroup := none,
                  undoStack := g :: e.undoStack,
                  redoStack := [] }

/-- Undoing one `ChangeRecord`: writes its old values back over its
target at its offset. Modelled from the spec. -/
def undoRecord (e : EditorState) (r : ChangeRecord) : EditorState :=
  match r.target with
  | ChangeTarget.image =>
      { e with image := applyBlock e.image r.offset r.shape r.oldValues }
  | ChangeTarget.mask  =>
      { e with mask  := applyBlock e.mask  r.offset r.shape r.oldValues }

/-- Modelled from the spec: `Editor.undo` - pops the most recent change
group, undoes its records in reverse order, and pushes the group onto the
redo stack; a no-op when the undo stack is empty. -/
def edUndo (e : EditorState) : EditorState :=
  match e.undoStack with
  | [] => e
  | g :: rest =>
    let e1 := g.reverse.foldl undoRecord { e with undoStack := rest }
    { e1 with redoStack := g :: e.redoStack }

/-- The common transaction shape of the profile actions `fillSelection`,
`eraseSelection` and `pasteSelection`: open a change group, perform the
image write, clear the selection, close the group. -/
def groupTxn (write : EditorState → EditorState) (e : EditorState) :
    Option EditorState :=
  (startChangeGroup e).bind fun e1 =>
    endChangeGroup (edClearSelection (write e1))

/-- `OrthoEditProfile.fillSelection` (with no alternative target image
set): `startChangeGroup`; `fillSelection(fillValue)`; `clearSelection`;
`endChangeGroup`. -/
def fillSelectionAction (fillValue : ℚ) (e : EditorState) :
    Option EditorState :=
  groupTxn (edFillSelection fillValue) e

/-- `OrthoEditProfile.eraseSelection` (with no alternative target image
set): `startChangeGroup`; `fillSelection(eraseValue)`; `clearSelection`;
`endChangeGroup`. -/
def eraseSelectionAction (eraseValue : ℚ) (e : EditorState) :
    Option EditorState :=
  groupTxn (edFillSelection eraseValue) e

/-- The paste transaction of `OrthoEditProfile.pasteSelection`, run once
the clipboard has been validated: `startChangeGroup`;
`pasteSelection(clipboard)`; `clearSelection`; `endChangeGroup`. -/
def pasteTxn (cb : Clipboard) (e : EditorState) : Option EditorState :=
  groupTxn (edPasteSelection cb) e

/-- `OrthoEditProfile.pasteSelection` (with no alternative target image
set): returns early - leaving the editor state untouched - when there is
no current overlay, no clipboard, or the clipboard's source is not
`sameSpace`-compatible with the overlay; otherwise runs the paste
transaction. The boolean records whether anything was reported to the
caller on the way out: the source reports nothing on any path, its early
exits being bare `return` statements. -/
def pasteSelectionAction (overlay : Option Image) (cb : Option Clipboard)
    (e : EditorState) : Option EditorState × Bool :=
  match overlay with
  | none => (some e, false)
  | some ovl =>
    match cb with
    | none => (some e, false)
    | some c =>
      if !sameSpace c.source ovl then (some e, false)
      else (pasteTxn c e, false)

/-- One profile edit action run at an editor state is atomic: it
succeeds, leaves no group open, pushes exactly one group holding an image
write followed by a mask write, and a single undo restores the pre-action
image, mask and undo stack. -/
def ActionAtomic (action : EditorState → Option EditorState)
    (e : EditorState) : Prop :=
  ∃ e', action e = some e' ∧
    e'.openGroup = none ∧
    (∃ g, e'.undoStack = g :: e.undoStack ∧
      g.map ChangeRecord.target = [ChangeTarget.image, ChangeTarget.mask]) ∧
    (∀ p, (edUndo e').image p = e.image p) ∧
    (∀ p, (edUndo e').mask p = e.mask p) ∧
    (edUndo e').undoStack = e.undoStack

/-! ## Notification suppression (`skipAll`) -/

/-- One replayed mask write, as performed during an undo or redo. -/
structure MaskWrite where
  offset : Voxel
  shape  : Voxel
  data   : Vol

/-- A notification delivered by the `Selection` object to its listeners:
a fine-grained change notification carrying the changed block, or the
single consolidated notification fired when a `skipAll` scope exits. -/
inductive SelNotice
  | changed (offset shape : Voxel)
  | consolidated

/-- A `Selection` as seen by its listeners: the mask volume and whether
notifications are currently suppressed. Modelled from the spec. -/
structure NotifySelection where
  mask       : Vol
  suppressed : Bool

/-- Modelled from the spec: one mask write - the block is written, and a
change notification for it is delivered unless suppression is active. -/
def applyWrite (w : MaskWrite) (s : NotifySelection) :
    NotifySelection × List SelNotice :=
  ({ s with mask := applyBlock s.mask w.offset w.shape w.data },
   if s.suppressed then [] else [SelNotice.changed w.offset w.shape])

/-- Runs a sequence of mask writes, concatenating the delivered
notifications. -/
def runWrites : List MaskWrite → NotifySelection →
    NotifySelection × List SelNotice
  | [],      s => (s, [])
  | w :: ws, s =>
    let r1 := applyWrite w s
    let r2 := runWrites ws r1.1
    (r2.1, r1.2 ++ r2.2)

/-- The pure effect of a sequence of mask writes on the mask volume. -/
def applyWrites (ws : List MaskWrite) (m : Vol) : Vol :=
  ws.foldl (fun acc w => applyBlock acc w.offset w.shape w.data) m

/-- Modelled from the spec: `Selection.skipAll()` - a scoped suppression
of change notifications for the duration of a block of writes;
notification resumes, and a single consolidated notification fires, on
scope exit. -/
def skipAllRun (ws : List MaskWrite) (s : NotifySelection) :
    NotifySelection × List SelNotice :=
  let r := runWrites ws { s with suppressed := true }
  ({ r.1 with suppressed := s.suppressed },
   r.2 ++ [SelNotice.consolidated])

/-- `OrthoEditProfile.undo` / `OrthoEditProfile.redo`: the replayed mask
writes of the undone or redone change group are performed inside
`with editor.getSelection().skipAll()`. -/
def profileUndoNotifications (ws : List MaskWrite) (s : NotifySelection) :
    NotifySelection × List SelNotice :=
  skipAllRun ws s

/-! ## Concrete inputs for witnesses and counterexamples -/

/-- Concrete overlay image for the paste-selection theorems. -/
def overlayC4 : Image := ⟨(2,2,2), (1,1,1), fun _ => 0⟩

/-- Concrete clipboard source of a different shape (hence not
`sameSpace`-compatible with `overlayC4`). -/
def clipSourceC4 : Image := ⟨(3,3,3), (1,1,1), fun _ => 0⟩

/-- Concrete incompatible clipboard. -/
def clipC4 : Clipboard := ⟨fun _ => 1, clipSourceC4⟩

/-- Concrete editor state for the paste-selection theorems. -/
def editorC4 : EditorState :=
  ⟨(2,2,2), fun _ => 0, fun _ => 0, [], [], none⟩

/-- Concrete editor state, with no change group open, for the
transactional-action witness. -/
def editorC10 : EditorState :=
  ⟨(1,1,1), fun _ => 0, fun _ => 1, [], [], none⟩

/-- Concrete compatible image for the transactional-action witness. -/
def imageC10 : Image := ⟨(1,1,1), (1,1,1), fun _ => 0⟩

/-- Concrete clipboard for the transactional-action witness. -/
def clipC10 : Clipboard := ⟨fun _ => 5, imageC10⟩

end FsleyesSpec

namespace FsleyesSpec

/-! ## Theorems about the merge advisor -/

/-- Claim C3: whenever radius-limiting is currently disabled, the merge
advisor's decision is `None` (`keep`) - no prior clear of the mask is
requested - whatever the rest of the advisor state and the 2D/3D mode,
and this test takes priority over every other decision rule. -/
theorem merger_radius_disabled_keeps (selectionIs3D : Bool) (s : MergeState) :
    (getSelectionMerger selectionIs3D false s).1 = MergeDecision.keep := by
  simp [getSelectionMerger]

/-- Claim C8: every call to `__getSelectionMerger`, on every advisor state
and whichever decision it returns, resets the full recorded state (mode,
3D flag, radius flag, block) to the empty state before returning. -/
theorem merger_decide_resets_state (selectionIs3D limitToRadius : Bool)
    (s : MergeState) :
    (getSelectionMerger selectionIs3D limitToRadius s).2 = MergeState.empty := by
  simp [getSelectionMerger]

/-- Claim C1, counterexample: with the last recorded operation a manual
selection but radius-limiting currently disabled, the advisor returns
`None` (`keep`), not `'clear'` - so "returns 'clear' regardless of the
current radius-limiting setting" is false on the code. -/
theorem merger_manual_sel_counterexample :
    (getSelectionMerger true false
        ⟨some MergeMode.sel, some true, some true, some ((0,0,0),(1,1,1))⟩).1
      = MergeDecision.keep ∧
    MergeDecision.keep ≠ MergeDecision.clear := by
  constructor
  · rfl
  · decide

/-- Claim C1, amended: when the last recorded operation was a manual
(non-intensity) selection and radius-limiting is currently enabled, the
advisor's decision is `'clear'` - never `None` and never a partial block -
whatever the other recorded fields and the current 2D/3D mode. -/
theorem merger_manual_sel_clears (selectionIs3D : Bool)
    (m3 mr : Option Bool) (blk : Option MergeBlock) :
    (getSelectionMerger selectionIs3D true
        ⟨some MergeMode.sel, m3, mr, blk⟩).1 = MergeDecision.clear := by
  simp [getSelectionMerger]

/-- Claim C2, counterexample: the last recorded operation is a deselect
recorded in 2D mode, 3D mode has since been enabled, and radius-limiting
is on; the claim requires `'clear'`, but the code returns the stored
block - the deselect branch returns `__mergeBlock` without consulting the
mode-change tests. -/
theorem merger_desel_counterexample :
    (getSelectionMerger true true
        ⟨some MergeMode.desel, some false, some true, some ((1,2,3),(4,5,6))⟩).1
      = MergeDecision.block ((1,2,3),(4,5,6)) ∧
    MergeDecision.block ((1,2,3),(4,5,6)) ≠ MergeDecision.clear := by
  constructor
  · rfl
  · decide

/-- Claim C2, amended: with radius-limiting currently enabled, if the last
recorded operation was a deselect the advisor returns the stored block
(`None` when no block is stored) unconditionally, without checking for
2D/3D or radius-mode changes; if it was a selectByValue, the advisor
returns `'clear'` when the operation was recorded in 2D mode and 3D mode
is now enabled, or when it was recorded without radius-limiting, and the
stored block otherwise. -/
theorem merger_desel_selint_decision (selectionIs3D : Bool)
    (m3 mr : Option Bool) (blk : Option MergeBlock) :
    (getSelectionMerger selectionIs3D true
        ⟨some MergeMode.desel, m3, mr, blk⟩).1 = blockToDecision blk ∧
    (getSelectionMerger selectionIs3D true
        ⟨some MergeMode.selint, m3, mr, blk⟩).1 =
      (if (pyNot m3 && selectionIs3D) || pyNot mr then MergeDecision.clear
       else blockToDecision blk) := by
  constructor
  · simp [getSelectionMerger]
  · rcases m3 with _ | ⟨_ | _⟩ <;> rcases mr with _ | ⟨_ | _⟩ <;>
      rcases selectionIs3D with _ | _ <;>
      simp [getSelectionMerger, pyNot]

/-! ## Theorems about the select-by-intensity arguments -/

/-- Claim C6: with radius-limiting enabled, the search radius passed to
`selectByValue` is the physical radius divided independently by each
axis's voxel spacing (an axis-aligned ellipsoid in voxel space for
anisotropic voxels, not a true sphere); with radius-limiting disabled no
search radius is passed at all. -/
theorem selint_search_radius_per_axis (searchRadius : ℚ) (px py pz : ℚ) :
    selintSearchRadius false searchRadius (px, py, pz) = none ∧
    selintSearchRadius true searchRadius (px, py, pz) =
      some (searchRadius / px, searchRadius / py, searchRadius / pz) :=
  ⟨rfl, rfl⟩

/-- Claim C7: with 3D selection disabled, the `restrict` argument passed
to `selectByValue` bounds the candidate set to exactly the
thickness-one slab containing the seed voxel on the source canvas's depth
axis, unbounded on the other two axes: a voxel satisfies every axis
slice exactly when its depth-axis coordinate equals the seed's. With 3D
selection enabled, no restriction is passed. -/
theorem selint_restrict_single_slice (zax : Fin 3) (voxel : Fin 3 → Nat) :
    selintRestrict true zax voxel = none ∧
    ∃ r, selintRestrict false zax voxel = some r ∧
      ∀ p : Fin 3 → Nat,
        ((∀ ax, inSliceB (r ax) (p ax) = true) ↔ p zax = voxel zax) := by
  refine ⟨rfl, ?_⟩
  refine ⟨_, rfl, ?_⟩
  intro p
  constructor
  · intro h
    have hz := h zax
    simp [inSliceB] at hz
    omega
  · intro h ax
    by_cases hax : ax = zax
    · subst hax
      simp [inSliceB, h]
    · simp [inSliceB, hax]

/-! ## Theorems about the selection texture -/

/-- A voxel inside a block is inside the block's shape once made
block-relative. -/
theorem inBlock_relVox (offset shape p : Voxel)
    (h : inBlock offset shape p = true) :
    inBlock (0,0,0) shape (relVox offset p) = true := by
  rcases offset with ⟨a, b, c⟩
  rcases shape with ⟨d, e, f⟩
  rcases p with ⟨x, y, z⟩
  simp [inBlock, relVox] at h ⊢
  omega

/-- Making a voxel block-relative and absolute again is the identity
inside the block. -/
theorem addVox_relVox (offset shape p : Voxel)
    (h : inBlock offset shape p = true) :
    addVox offset (relVox offset p) = p := by
  rcases offset with ⟨a, b, c⟩
  rcases shape with ⟨d, e, f⟩
  rcases p with ⟨x, y, z⟩
  simp [inBlock] at h
  simp [addVox, relVox, Prod.ext_iff]
  omega

/-- Claim C5: on a change notification, a reported delta makes the
texture consumer upload only the new block at its offset, scaled to uint8
by multiplying by 255; a `(None, None, None)` report makes it upload the
full selection volume with the same scaling; and whenever the reported
block equals the selection's contents at that offset and no texel outside
the block is stale, the incrementally patched texture is identical to a
full re-upload. -/
theorem texture_patch_refines_full_upload (tex : Tex) (sel : Vol)
    (c : LastChange) :
    selectionChanged tex sel none = fullUpload sel ∧
    selectionChanged tex sel (some c)
      = doPatch tex (fun q => toUint8 (c.new q)) c.offset c.shape ∧
    ((∀ q, inBlock (0,0,0) c.shape q = true →
        c.new q = sel (addVox c.offset q)) →
     (∀ p, inBlock c.offset c.shape p = false →
        tex p = toUint8 (sel p)) →
     ∀ p, selectionChanged tex sel (some c) p = fullUpload sel p) := by
  refine ⟨rfl, rfl, ?_⟩
  intro hin hout p
  show (if inBlock c.offset c.shape p then toUint8 (c.new (relVox c.offset p))
        else tex p) = toUint8 (sel p)
  by_cases hp : inBlock c.offset c.shape p = true
  · rw [if_pos hp, hin (relVox c.offset p) (inBlock_relVox _ _ _ hp),
        addVox_relVox _ _ _ hp]
  · have hp' : inBlock c.offset c.shape p = false :=
      Bool.eq_false_iff.mpr hp
    rw [if_neg (by simp [hp']), hout p hp']

/-- Witness for the claim about `__selectionChanged`, at a concrete
texture, selection and delta. -/
theorem texture_patch_refines_full_upload_witness :
    selectionChanged texC5 selC5 (some changeC5) (0,0,0)
      = fullUpload selC5 (0,0,0) :=
  (texture_patch_refines_full_upload texC5 selC5 changeC5).2.2
    (fun _ _ => rfl)
    (fun _ _ => by simp [texC5, selC5, toUint8])
    (0,0,0)

/-! ## Theorems about the transactional edit actions -/

/-- Writing a whole-extent block of old values over a volume that agrees
with the old values outside the extent restores the old volume
exactly. -/
theorem applyBlock_restore (vol old : Vol) (shape : Voxel)
    (hout : ∀ p, inVol shape p = false → vol p = old p) (p : Voxel) :
    applyBlock vol (0,0,0) shape old p = old p := by
  unfold applyBlock
  by_cases hp : inBlock (0,0,0) shape p = true
  · rw [if_pos hp]
    rcases p with ⟨x, y, z⟩
    simp [relVox]
  · simp only [Bool.not_eq_true] at hp
    rw [if_neg (by rw [hp]; exact Bool.false_ne_true)]
    exact hout p hp

/-- A `groupTxn` built from an image write that only touches voxels
inside the volume extent is atomic in the sense of `ActionAtomic`. -/
theorem groupTxn_edSetImage_atomic (f : EditorState → Vol) (e : EditorState)
    (h : e.openGroup = none)
    (hf : ∀ (es : EditorState) p, inVol es.shape p = false →
            f es p = es.image p) :
    ActionAtomic (groupTxn (edSetImage f)) e := by
  rcases e with ⟨shape, image, mask, us, rs, og⟩
  cases og with
  | some g => simp at h
  | none =>
    refine ⟨_, rfl, rfl, ⟨_, rfl, rfl⟩, ?_, ?_, rfl⟩
    · intro p
      show applyBlock
          (f ⟨shape, image, mask, us, rs, some []⟩) (0,0,0) shape image p
        = image p
      exact applyBlock_restore _ _ _
        (fun q hq => hf ⟨shape, image, mask, us, rs, some []⟩ q hq) p
    · intro p
      show applyBlock
          (fun q => if inVol shape q then 0 else mask q) (0,0,0) shape mask p
        = mask p
      exact applyBlock_restore _ _ _ (fun q hq => by simp [hq]) p

/-- Claim C10: each of the `fillSelection`, `eraseSelection` and (for a
validated clipboard) `pasteSelection` profile actions opens exactly one
change group, performs the image write followed by a `clearSelection` of
the mask inside that group, and closes the group - start and end are
balanced, the pushed group holds exactly the image record followed by the
mask record - and a single undo reverses both the image mutation and the
selection clear, restoring the pre-action image, mask and undo stack
exactly. -/
theorem edit_actions_atomic (fillValue eraseValue : ℚ) (cb : Clipboard)
    (e : EditorState) (h : e.openGroup = none) :
    ActionAtomic (fillSelectionAction fillValue) e ∧
    ActionAtomic (eraseSelectionAction eraseValue) e ∧
    ActionAtomic (pasteTxn cb) e :=
  ⟨groupTxn_edSetImage_atomic _ e h (fun es p hp => by simp [hp]),
   groupTxn_edSetImage_atomic _ e h (fun es p hp => by simp [hp]),
   groupTxn_edSetImage_atomic _ e h (fun es p hp => by simp [hp])⟩

/-- Witness for the transactional-action claim, at a concrete editor
state with no open change group and a concrete clipboard. -/
theorem edit_actions_atomic_witness :
    ActionAtomic (fillSelectionAction 7) editorC10 ∧
    ActionAtomic (eraseSelectionAction 0) editorC10 ∧
    ActionAtomic (pasteTxn clipC10) editorC10 :=
  edit_actions_atomic 7 0 clipC10 editorC10 rfl

/-- Claim C4, counterexample: at a clipboard whose source shape differs
from the target overlay's, `pasteSelection` leaves the editor state
untouched and reports nothing to the caller - the incompatibility is
silently ignored, contradicting "reported to the caller rather than
silently ignored". -/
theorem paste_incompatible_counterexample :
    sameSpace clipC4.source overlayC4 = false ∧
    pasteSelectionAction (some overlayC4) (some clipC4) editorC4
      = (some editorC4, false) := by
  constructor
  · decide
  · rfl

/-- Claim C4, amended: when the clipboard is absent, or its source is not
`sameSpace`-compatible with the target overlay, `pasteSelection` performs
no write - the target image, selection mask and undo/redo history are all
returned in their pre-call state - and the incompatibility is silently
ignored: nothing is reported to the caller (the UI separately disables
the paste action for incompatible clipboards). -/
theorem paste_incompatible_noop (ovl : Image) (c : Clipboard)
    (e : EditorState) (h : sameSpace c.source ovl = false) :
    pasteSelectionAction (some ovl) (some c) e = (some e, false) ∧
    pasteSelectionAction (some ovl) none e = (some e, false) := by
  constructor
  · simp [pasteSelectionAction, h]
  · rfl

/-- Witness for the amended paste-selection claim, at a concrete
incompatible clipboard and editor state. -/
theorem paste_incompatible_noop_witness :
    pasteSelectionAction (some overlayC4) (some clipC4) editorC4
      = (some editorC4, false) ∧
    pasteSelectionAction (some overlayC4) none editorC4
      = (some editorC4, false) :=
  paste_incompatible_noop overlayC4 clipC4 editorC4 (by decide)

/-! ## Theorems about notification suppression -/

/-- While suppression is active, a run of mask writes delivers no
notification at all, applies every write to the mask, and leaves
suppression active. -/
theorem runWrites_suppressed (ws : List MaskWrite) (m : Vol) :
    runWrites ws ⟨m, true⟩ = (⟨applyWrites ws m, true⟩, []) := by
  induction ws generalizing m with
  | nil => rfl
  | cons w ws ih =>
      simp only [runWrites, applyWrite, applyWrites, List.foldl, if_pos]
      rw [ih]
      simp [applyWrites]

/-- Claim C9: an undo or redo performed inside a `skipAll` suppression
scope delivers no change notification for any of the replayed mask
writes; the writes are all applied, suppression is lifted on scope exit,
and a single consolidated notification - and nothing else - fires on
scope exit. -/
theorem undo_skipAll_single_notification (ws : List MaskWrite) (m : Vol) :
    profileUndoNotifications ws ⟨m, false⟩
      = (⟨applyWrites ws m, false⟩, [SelNotice.consolidated]) ∧
    ∀ off sh, SelNotice.changed off sh ∉
      (profileUndoNotifications ws ⟨m, false⟩).2 := by
  have h : profileUndoNotifications ws ⟨m, false⟩
      = (⟨applyWrites ws m, false⟩, [SelNotice.consolidated]) := by
    simp [profileUndoNotifications, skipAllRun, runWrites_suppressed ws m]
  refine ⟨h, ?_⟩
  intro off sh
  rw [h]
  simp

end FsleyesSpec
